import Mathlib

/-!
Verification of the ORouter structured-generation client
(`apps/openrouter_text_client.py`).

The development shallowly embeds the pure core of the client:

* the markdown-fence stripping helper `OpenRouterClient._extract_json`
  (here `extract_json`), built on a model of the Python `str.strip`,
  `str.split` and `str.join` operations over lists of characters;
* the retry loop of `OpenRouterClient.generate_structured`
  (here `generate_structured` / `generateStructuredLoop`), with the
  completion service abstracted as a function from the message list to
  either raw text or a transport failure, and the JSON-parse-plus-model
  validation step abstracted as a `decode` function;
* `OpenRouterClient.generate_structured_list`, including a small JSON
  value type, a recursive descent reading of JSON text (standing in for
  the Python `json` library collaborator) and a model of the pydantic
  validation of the synthetic single-field wrapper object;
* `ModelConfig.__post_init__` validation and the model-selection step of
  `OpenRouterClient.__init__`.

Machine integers do not occur in the relevant code; the floating point
inference parameters of `ModelConfig` are modelled as rationals, which is
exact for the order comparisons the validation performs.
-/

namespace ORouter

/-- Whitespace stripped by the Python `str.strip()` used in the source
(ASCII whitespace; the source never feeds it non-ASCII whitespace). -/
def isPySpace (c : Char) : Bool :=
  c = ' ' || c = '\t' || c = '\n' || c = '\r' || c = '\x0b' || c = '\x0c'

/-- Python `str.strip()` on a list of characters: drop leading and trailing
whitespace. -/
def pyStripList (l : List Char) : List Char :=
  ((l.dropWhile isPySpace).reverse.dropWhile isPySpace).reverse

/-- Python `str.strip()`. -/
def pyStrip (s : String) : String :=
  String.mk (pyStripList s.data)

/-- Python `text.split("\n")` on a list of characters: split at every
newline, keeping empty pieces, as the Python single-character split does. -/
def splitNl : List Char → List (List Char)
  | [] => [[]]
  | c :: rest =>
    if c = '\n' then [] :: splitNl rest
    else
      match splitNl rest with
      | [] => [[c]]
      | h :: t => (c :: h) :: t

/-- Python `"\n".join(lines)` on lists of characters. -/
def joinNl : List (List Char) → List Char
  | [] => []
  | [l] => l
  | l :: ls => l ++ '\n' :: joinNl ls

/-- The characters of a triple-backtick fence marker. -/
def fenceChars : List Char := "```".data

/-- Drop the final line when, after stripping, it is exactly a closing
fence marker; from the `if lines and lines[-1].strip() == "```"` test of
`_extract_json`. -/
def dropClosingFence (lines : List (List Char)) : List (List Char) :=
  match lines.getLast? with
  | some last => if pyStripList last = fenceChars then lines.dropLast else lines
  | none => lines

/-- Character-level body of `OpenRouterClient._extract_json` (source lines
340 to 352): strip, and when the stripped text starts with a fence, drop
the first line, conditionally drop the closing fence line, join the rest
with newlines and strip again. -/
def extract_json_chars (l : List Char) : List Char :=
  let text := pyStripList l
  if fenceChars.isPrefixOf text then
    let lines := (splitNl text).drop 1
    let lines2 :=
      match lines.getLast? with
      | some last => if pyStripList last = fenceChars then lines.dropLast else lines
      | none => lines
    pyStripList (joinNl lines2)
  else text

/-- Function `OpenRouterClient._extract_json`. Total: it always returns a string and
raises nothing. -/
def extract_json (s : String) : String :=
  String.mk (extract_json_chars s.data)

/-- The extraction algorithm exactly as the claim words it: after trimming,
a fenced text maps to the *joined remainder* of its lines, with no further
trimming. Written from the claim text, to be compared with
`extract_json_chars`. -/
def extract_json_claimed (l : List Char) : List Char :=
  let text := pyStripList l
  if fenceChars.isPrefixOf text then
    joinNl (dropClosingFence ((splitNl text).drop 1))
  else text

/-- The extraction algorithm as the amended claim words it: identical to
the claimed algorithm except that the joined remainder is trimmed of
surrounding whitespace before being returned. Written from the amended
claim text, to be compared with `extract_json_chars`. -/
def extract_json_spec (l : List Char) : List Char :=
  let text := pyStripList l
  if fenceChars.isPrefixOf text then
    pyStripList (joinNl (dropClosingFence ((splitNl text).drop 1)))
  else text

/-- Boolean substring test: does `needle` occur contiguously in `hay`? -/
def containsSubstr (needle hay : String) : Bool :=
  hay.data.tails.any (fun t => needle.data.isPrefixOf t)

/-- A chat message, as the dictionaries `\x7b"role": ..., "content": ...\x7d`
built by the source. -/
structure Message where
  role : String
  content : String
deriving DecidableEq

/-- The schema instruction block of `generate_structured` (source lines 222
to 226); `schemaStr` stands for `json.dumps(schema, indent=2)` of the
response model, which the embedding keeps abstract. -/
def schema_instruction (schemaStr : String) : String :=
  "You must respond with valid JSON that matches this exact schema:\n" ++ schemaStr ++
    "\n\nRespond ONLY with the JSON object, no additional text or markdown formatting."

/-- The enhanced system prompt of `generate_structured` (source lines 228
to 229): base system prompt (empty when absent or falsy) joined to the
schema instruction, then stripped. -/
def enhanced_system_prompt (system_prompt : Option String) (schemaStr : String) : String :=
  pyStrip ((match system_prompt with | some s => s | none => "") ++ "\n\n" ++
    schema_instruction schemaStr)

/-- The initial conversation of `generate_structured` (source lines 231 to
234). -/
def init_messages (system_prompt : Option String) (schemaStr user_prompt : String) :
    List Message :=
  [⟨"system", enhanced_system_prompt system_prompt schemaStr⟩, ⟨"user", user_prompt⟩]

/-- The error feedback message appended on a failed attempt (source lines
263 to 266); its argument is `str(e)` of the parse or validation error. -/
def feedback_message (e : String) : String :=
  "Your previous response was invalid. Error: " ++ e ++
    "\nPlease provide a valid JSON response matching the schema exactly."

/-- Outcome of a `generate_structured` call: the validated value, the
`RuntimeError` raised on a service failure (source line 270), or the
terminal error raised after the retry budget is exhausted (source lines
273 to 276). -/
inductive GenResult (α : Type) where
  | ok : α → GenResult α
  | runtimeError : String → GenResult α
  | validationError : String → GenResult α
deriving DecidableEq

/-- Python `str(last_error)` where `last_error` is `None` or an exception
whose string is carried in the option. -/
def optStr : Option String → String
  | none => "None"
  | some e => e

/-- The message of the terminal error raised once all retries failed
(source lines 273 to 276). -/
def exhaust_message (max_retries : Int) (last_error : Option String) : String :=
  ("Failed to generate valid structured output after " ++ toString max_retries ++
    " attempts. Last error: ") ++ optStr last_error

/-- The `for attempt in range(max_retries)` loop of `generate_structured`
(source lines 239 to 276). `svc` is the completion service: it receives
the message list and returns the raw reply text, or a transport failure
that the source turns into a `RuntimeError`. `decode` is the composition
of `json.loads` and `response_model.model_validate`, returning the typed
value or `str(e)` of the parse or validation error. `fuel` is the number
of loop iterations still to run and `attempt` the current loop index;
the call sites keep `fuel = max_retries.toNat - attempt`. Besides the
result, the function returns the list of message lists passed to the
successive completion-service invocations. -/
def generateStructuredLoop (svc : List Message → Except String String)
    (decode : String → Except String α) (max_retries : Int) :
    Nat → Int → List Message → Option String → GenResult α × List (List Message)
  | 0, _attempt, _msgs, last_error =>
    (GenResult.validationError (exhaust_message max_retries last_error), [])
  | fuel + 1, attempt, msgs, _last_error =>
    match svc msgs with
    | Except.error e => (GenResult.runtimeError ("API request failed: " ++ e), [msgs])
    | Except.ok response_text =>
      match decode (extract_json response_text) with
      | Except.ok v => (GenResult.ok v, [msgs])
      | Except.error e =>
        let msgs' :=
          if attempt < max_retries - 1 then
            msgs ++ [⟨"assistant", response_text⟩, ⟨"user", feedback_message e⟩]
          else msgs
        let r := generateStructuredLoop svc decode max_retries fuel (attempt + 1) msgs' (some e)
        (r.1, msgs :: r.2)

/-- Method `OpenRouterClient.generate_structured` (source lines 180 to 276), with
the completion service and the parse-and-validate step abstracted as
`svc` and `decode`: build the initial conversation, then run the retry
loop with `last_error = None` and `range(max_retries)` iterations. -/
def generate_structured (svc : List Message → Except String String)
    (decode : String → Except String α) (system_prompt : Option String)
    (schemaStr user_prompt : String) (max_retries : Int) :
    GenResult α × List (List Message) :=
  generateStructuredLoop svc decode max_retries max_retries.toNat 0
    (init_messages system_prompt schemaStr user_prompt) none

/-- JSON values, as produced by the `json` library collaborator. Numbers
are modelled as integers; the fractional forms never occur in this
development. -/
inductive Json where
  | null : Json
  | bool : Bool → Json
  | num : Int → Json
  | str : String → Json
  | arr : List Json → Json
  | obj : List (String × Json) → Json

/-- JSON insignificant whitespace. -/
def isJsonWs (c : Char) : Bool :=
  c = ' ' || c = '\t' || c = '\n' || c = '\r'

/-- Skip JSON whitespace. -/
def skipWs (l : List Char) : List Char :=
  l.dropWhile isJsonWs

/-- Read a JSON string body up to the closing quote. Escape sequences are
refused; none occur in this development. -/
def readStrBody : List Char → Option (String × List Char)
  | [] => none
  | '"' :: rest => some ("", rest)
  | '\\' :: _ => none
  | c :: rest =>
    match readStrBody rest with
    | some (s, r) => some (String.mk (c :: s.data), r)
    | none => none

/-- Digits to a natural number. -/
def digitsToNat (ds : List Char) : Nat :=
  ds.foldl (fun acc c => acc * 10 + (c.toNat - '0'.toNat)) 0

/-- Read an optionally signed integer literal. -/
def readIntTok (l : List Char) : Option (Int × List Char) :=
  let (neg, l') :=
    match l with
    | '-' :: r => (true, r)
    | _ => (false, l)
  let ds := l'.takeWhile (fun c => c.isDigit)
  if ds = [] then none
  else
    let n : Int := Int.ofNat (digitsToNat ds)
    some ((if neg then -n else n), l'.dropWhile (fun c => c.isDigit))

/-- What a reading step is asked to produce: a single value, the members
of an object after its opening brace, or the elements of an array after
its opening bracket. -/
inductive PTok where
  | v : PTok
  | ms : PTok
  | es : PTok

/-- Result of a reading step, matching the three `PTok` requests. -/
inductive PRes where
  | v : Json → PRes
  | ms : List (String × Json) → PRes
  | es : List Json → PRes

/-- Recursive descent reading of JSON text, standing in for the Python
`json.loads` library collaborator; `fuel` bounds the recursion depth and
any length-plus-one fuel is sufficient. -/
def parseStep : Nat → PTok → List Char → Option (PRes × List Char)
  | 0, _, _ => none
  | fuel + 1, PTok.v, l =>
    match skipWs l with
    | '"' :: r =>
      match readStrBody r with
      | some (s, r2) => some (PRes.v (Json.str s), r2)
      | none => none
    | '\x7b' :: r =>
      match skipWs r with
      | '\x7d' :: r2 => some (PRes.v (Json.obj []), r2)
      | _ =>
        match parseStep fuel PTok.ms r with
        | some (PRes.ms mems, r2) => some (PRes.v (Json.obj mems), r2)
        | _ => none
    | '[' :: r =>
      match skipWs r with
      | ']' :: r2 => some (PRes.v (Json.arr []), r2)
      | _ =>
        match parseStep fuel PTok.es r with
        | some (PRes.es els, r2) => some (PRes.v (Json.arr els), r2)
        | _ => none
    | 't' :: 'r' :: 'u' :: 'e' :: r => some (PRes.v (Json.bool true), r)
    | 'f' :: 'a' :: 'l' :: 's' :: 'e' :: r => some (PRes.v (Json.bool false), r)
    | 'n' :: 'u' :: 'l' :: 'l' :: r => some (PRes.v Json.null, r)
    | l' =>
      match readIntTok l' with
      | some (n, r) => some (PRes.v (Json.num n), r)
      | none => none
  | fuel + 1, PTok.ms, l =>
    match skipWs l with
    | '"' :: r =>
      match readStrBody r with
      | some (key, r2) =>
        (match skipWs r2 with
         | ':' :: r3 =>
           match parseStep fuel PTok.v r3 with
           | some (PRes.v v, r4) =>
             (match skipWs r4 with
              | ',' :: r5 =>
                (match parseStep fuel PTok.ms r5 with
                 | some (PRes.ms mems, r6) => some (PRes.ms ((key, v) :: mems), r6)
                 | _ => none)
              | '\x7d' :: r5 => some (PRes.ms [(key, v)], r5)
              | _ => none)
           | _ => none
         | _ => none)
      | none => none
    | _ => none
  | fuel + 1, PTok.es, l =>
    match parseStep fuel PTok.v l with
    | some (PRes.v v, r) =>
      (match skipWs r with
       | ',' :: r2 =>
         (match parseStep fuel PTok.es r2 with
          | some (PRes.es els, r3) => some (PRes.es (v :: els), r3)
          | _ => none)
       | ']' :: r2 => some (PRes.es [v], r2)
       | _ => none)
    | _ => none

/-- Python `json.loads`: read one JSON value and require only whitespace
after it. -/
def parseJson (s : String) : Except String Json :=
  match parseStep (s.data.length + 1) PTok.v s.data with
  | some (PRes.v j, rest) =>
    if skipWs rest = [] then Except.ok j else Except.error ("Extra data")
  | _ => Except.error ("Expecting value")

/-- First binding of a key in a decoded JSON object. -/
def lookupField (fields : List (String × Json)) (key : String) : Option Json :=
  match fields.find? (fun p => p.1 == key) with
  | some p => some p.2
  | none => none

/-- The synthetic single-field wrapper object that
`generate_structured_list` builds around the item model (source lines 311
to 312): `class ListWrapper(BaseModel): items: List[item_model]`. -/
structure ListWrapper (β : Type) where
  items : List β
deriving DecidableEq

/-- Models `ListWrapper.model_validate` of the pydantic library
collaborator: require an object with an `items` field holding a list, and
validate every element with the item model validator `vi`; unknown fields
are ignored. -/
def validate_list_wrapper (vi : Json → Except String β) : Json → Except String (ListWrapper β)
  | Json.obj fields =>
    match lookupField fields ("items") with
    | some (Json.arr xs) => (xs.mapM vi).map ListWrapper.mk
    | some _ => Except.error ("items: Input should be a valid list")
    | none => Except.error ("items: Field required")
  | _ => Except.error ("Input should be a valid dictionary")

/-- The decode step `generate_structured` runs for the wrapper model:
`json.loads` then `ListWrapper.model_validate`. -/
def wrapped_decode (vi : Json → Except String β) (s : String) :
    Except String (ListWrapper β) :=
  (parseJson s).bind (validate_list_wrapper vi)

/-- Method `OpenRouterClient.generate_structured_list` (source lines 278 to 320):
wrap the item model in the synthetic `ListWrapper`, delegate to
`generate_structured` with the same `max_retries`, and unwrap the `items`
field of a successful result; errors pass through unchanged. The trace of
completion-service invocations is the trace of the delegated call. -/
def generate_structured_list (svc : List Message → Except String String)
    (vi : Json → Except String β) (system_prompt : Option String)
    (schemaStr user_prompt : String) (max_retries : Int) :
    GenResult (List β) × List (List Message) :=
  let r := generate_structured svc (wrapped_decode vi) system_prompt schemaStr
    user_prompt max_retries
  (match r.1 with
   | GenResult.ok w => GenResult.ok w.items
   | GenResult.runtimeError e => GenResult.runtimeError e
   | GenResult.validationError e => GenResult.validationError e,
   r.2)

/-- The item model of the list-generation example: `\x7bname: string,
priority: string\x7d`. -/
structure Task where
  name : String
  priority : String
deriving DecidableEq

/-- Models `Task.model_validate` of the pydantic library collaborator for
the example item model: an object with string fields `name` and
`priority`. -/
def validateTask : Json → Except String Task
  | Json.obj fields =>
    match lookupField fields ("name"), lookupField fields ("priority") with
    | some (Json.str n), some (Json.str p) => Except.ok ⟨n, p⟩
    | _, _ => Except.error ("Input should match the Task fields")
  | _ => Except.error ("Input should be a valid dictionary")

/-- Dataclass `ModelConfig` (source lines 12 to 24), field for field. The float
parameters are modelled as rationals; `extra_body` is the opaque extra
parameters map, never interpreted by the core. -/
structure ModelConfig where
  model : Option String
  temperature : ℚ
  max_tokens : Option Int
  top_p : ℚ
  frequency_penalty : ℚ
  presence_penalty : ℚ
  system_prompt : Option String
  extra_body : List (String × String)
deriving DecidableEq

/-- The `self.max_tokens is not None and self.max_tokens < 1` test of
`ModelConfig.__post_init__` (source line 36). -/
def max_tokens_invalid : Option Int → Bool
  | some m => decide (m < 1)
  | none => false

/-- Construction of `ModelConfig` with the `__post_init__` validation (source
lines 26 to 37): the checks run in source order and each failure raises a
`ValueError` carrying the message of the source. -/
def mkModelConfig (model : Option String) (temperature : ℚ) (max_tokens : Option Int)
    (top_p frequency_penalty presence_penalty : ℚ) (system_prompt : Option String)
    (extra_body : List (String × String)) : Except String ModelConfig :=
  if temperature < 0 ∨ 2 < temperature then
    Except.error ("Temperature must be between 0 and 2")
  else if top_p < 0 ∨ 1 < top_p then
    Except.error ("top_p must be between 0 and 1")
  else if frequency_penalty < -2 ∨ 2 < frequency_penalty then
    Except.error ("frequency_penalty must be between -2 and 2")
  else if presence_penalty < -2 ∨ 2 < presence_penalty then
    Except.error ("presence_penalty must be between -2 and 2")
  else if max_tokens_invalid max_tokens then
    Except.error ("max_tokens must be positive")
  else
    Except.ok ⟨model, temperature, max_tokens, top_p, frequency_penalty,
      presence_penalty, system_prompt, extra_body⟩

/-- Constant `OpenRouterClient.MODELS` (source lines 65 to 78). -/
def MODELS : List String :=
  ["deepseek/deepseek-chat-v3.1:free",
   "mistralai/mistral-small-3.2-24b-instruct:free",
   "moonshotai/kimi-dev-72b:free",
   "meta-llama/llama-3.3-8b-instruct:free",
   "nvidia/nemotron-nano-9b-v2:free",
   "openai/gpt-oss-20b:free",
   "qwen/qwen3-14b:free",
   "qwen/qwen3-30b-a3b:free",
   "qwen/qwen3-235b-a22b:free",
   "tencent/hunyuan-a13b-instruct:free",
   "x-ai/grok-4-fast:free",
   "z-ai/glm-4.5-air:free"]

/-- Constant `OpenRouterClient.MODEL_ALIASES` (source lines 80 to 93). -/
def MODEL_ALIASES : List (String × String) :=
  [("deepseek", "deepseek/deepseek-chat-v3.1:free"),
   ("mistral", "mistralai/mistral-small-3.2-24b-instruct:free"),
   ("kimi", "moonshotai/kimi-dev-72b:free"),
   ("llama", "meta-llama/llama-3.3-8b-instruct:free"),
   ("nemotron", "nvidia/nemotron-nano-9b-v2:free"),
   ("gpt", "openai/gpt-oss-20b:free"),
   ("qwen14", "qwen/qwen3-14b:free"),
   ("qwen30", "qwen/qwen3-30b-a3b:free"),
   ("qwen235", "qwen/qwen3-235b-a22b:free"),
   ("hunyuan", "tencent/hunyuan-a13b-instruct:free"),
   ("grok", "x-ai/grok-4-fast:free"),
   ("glm", "z-ai/glm-4.5-air:free")]

/-- Python `str.lower()` (ASCII case folding; the alias keys are ASCII). -/
def pyLower (s : String) : String :=
  String.mk (s.data.map Char.toLower)

/-- Method `OpenRouterClient.resolve_model` (source lines 127 to 138):
`MODEL_ALIASES.get(model_input.lower(), model_input)`. -/
def resolve_model (model_input : String) : String :=
  match MODEL_ALIASES.find? (fun p => p.1 == pyLower model_input) with
  | some p => p.2
  | none => model_input

/-- The model-selection step of `OpenRouterClient.__init__` (source lines
114 to 125), acting on the caller-supplied config object in place: when
`model` is absent it is assigned `random.choice(self.get_models())`,
abstracted here as the parameter `pick`; otherwise it is assigned the
alias-resolved name (the out-of-list warning is only printed). The value
returned is the state of that same config object after construction. -/
def init_default_config (pick : String) (config : ModelConfig) : ModelConfig :=
  match config.model with
  | none => { config with model := some pick }
  | some m => { config with model := some (resolve_model m) }

/-- The message list `OpenRouterClient.generate_text` sends (source lines
164 to 167); `if config.system_prompt:` is Python truthiness, so an empty
system prompt adds no message. -/
def generate_text_messages (config : ModelConfig) (user_prompt : String) : List Message :=
  (match config.system_prompt with
   | some sp => if sp = "" then [] else [⟨"system", sp⟩]
   | none => []) ++ [⟨"user", user_prompt⟩]

/-- Method `OpenRouterClient.generate_text` (source lines 149 to 178) as a
state-passing function of the default config: the method body contains no
assignment to any config field, so the config after the call is the one
passed in; the network call itself is the external collaborator, so the
modelled observable is the message list sent. -/
def generate_text (config : ModelConfig) (user_prompt : String) :
    List Message × ModelConfig :=
  (generate_text_messages config user_prompt, config)

/-- Method `OpenRouterClient.generate_structured` as a state-passing function of
the default config: the method reads `config.system_prompt` (and the
inference parameters it forwards to the service) and assigns no config
field. -/
def generate_structured_client (svc : List Message → Except String String)
    (decode : String → Except String α) (config : ModelConfig)
    (schemaStr user_prompt : String) (max_retries : Int) :
    (GenResult α × List (List Message)) × ModelConfig :=
  (generate_structured svc decode config.system_prompt schemaStr user_prompt max_retries,
   config)

/-- Method `OpenRouterClient.generate_structured_list` as a state-passing
function of the default config; like the two methods it builds on, it
assigns no config field. -/
def generate_structured_list_client (svc : List Message → Except String String)
    (vi : Json → Except String β) (config : ModelConfig)
    (schemaStr user_prompt : String) (max_retries : Int) :
    (GenResult (List β) × List (List Message)) × ModelConfig :=
  (generate_structured_list svc vi config.system_prompt schemaStr user_prompt max_retries,
   config)

/-- A completion service that answers every invocation with the same
unparseable text. -/
def svcAlwaysBad : List Message → Except String String :=
  fun _ => Except.ok ("bad")

/-- A decode step that rejects every payload. -/
def decodeAlwaysFail : String → Except String Nat :=
  fun _ => Except.error ("E")

/-- A completion service that answers the two-message initial conversation
with a fenced invalid payload and any longer conversation with a clean
valid one. -/
def svcSecondTry : List Message → Except String String :=
  fun msgs => if msgs.length == 2 then Except.ok ("```json\nbad\n```") else Except.ok ("good")

/-- A decode step that accepts exactly the payload `good`. -/
def decodeGoodOnly : String → Except String Nat :=
  fun s => if s == "good" then Except.ok 1 else Except.error ("E")

/-- A completion service whose raw reply is a recognizable marker string. -/
def svcRawMarker : List Message → Except String String :=
  fun _ => Except.ok ("RAW_OUTPUT_XYZ")

/-- A decode step that rejects every payload with the error `boom`. -/
def decodeBoom : String → Except String Nat :=
  fun _ => Except.error ("boom")

/-- A completion service that fails with a transport error. -/
def svcTransportFail : List Message → Except String String :=
  fun _ => Except.error ("boom")

/-- The completion service of the list-generation example, answering with
the wrapped single-item payload. -/
def svcItemsExample : List Message → Except String String :=
  fun _ => Except.ok ("\x7b\"items\":[\x7b\"name\":\"A\",\"priority\":\"high\"\x7d]\x7d")

/-- A caller-supplied config whose model is the alias `deepseek`. -/
def aliasConfig : ModelConfig :=
  ⟨some ("deepseek"), 7/10, none, 1, 0, 0, none, []⟩

/-! ## Helper lemmas -/

theorem dropWhile_idem_chars (p : Char → Bool) (l : List Char) :
    (l.dropWhile p).dropWhile p = l.dropWhile p := by
  induction l with
  | nil => rfl
  | cons a t ih =>
    by_cases h : p a
    · simp [List.dropWhile_cons, h, ih]
    · simp [List.dropWhile_cons, h]

theorem dropWhile_head_fail (p : Char → Bool) (l : List Char) (a : Char) (t : List Char)
    (h : l.dropWhile p = a :: t) : p a = false := by
  induction l with
  | nil => simp at h
  | cons b s ih =>
    rw [List.dropWhile_cons] at h
    by_cases hb : p b
    · rw [if_pos hb] at h; exact ih h
    · rw [if_neg hb] at h
      cases h
      simpa using hb

theorem rtrim_isPrefix (p : Char → Bool) (x : List Char) :
    (x.reverse.dropWhile p).reverse <+: x := by
  have h1 : x.reverse.dropWhile p <:+ x.reverse := List.dropWhile_suffix p
  have h2 := List.reverse_prefix.mpr h1
  rwa [List.reverse_reverse] at h2

theorem head_of_isPrefix (u v : List Char) (a : Char) (t : List Char)
    (h : u <+: v) (hu : u = a :: t) : ∃ s, v = a :: s := by
  obtain ⟨r, hr⟩ := h
  subst hu
  exact ⟨t ++ r, by simpa using hr.symm⟩

theorem pyStripList_idem (l : List Char) :
    pyStripList (pyStripList l) = pyStripList l := by
  unfold pyStripList
  set p := isPySpace with hp
  set x := l.dropWhile p with hx
  set inner := x.reverse.dropWhile p with hinner
  have stepA : inner.reverse.dropWhile p = inner.reverse := by
    cases hy : inner.reverse with
    | nil => simp
    | cons a t =>
      have hyx : inner.reverse <+: x := rtrim_isPrefix p x
      obtain ⟨s, hs⟩ := head_of_isPrefix _ _ _ _ hyx hy
      have hpa : p a = false := dropWhile_head_fail p l a s (by rw [← hx, hs])
      rw [List.dropWhile_cons, if_neg (by simp [hpa])]
  rw [stepA, List.reverse_reverse, dropWhile_idem_chars]

theorem containsSubstr_append (n q : String) : containsSubstr n (q ++ n) = true := by
  unfold containsSubstr
  rw [List.any_eq_true]
  refine ⟨n.data, ?_, ?_⟩
  · rw [List.mem_tails, String.data_append]
    exact List.suffix_append q.data n.data
  · simp [ List.isPrefixOf_iff_prefix]

/-! ## Claim C5: the extraction algorithm -/

/-- Claim C5, counterexample to the claim as stated: on the fenced text
whose inner line has surrounding spaces, the code strips the joined
remainder once more, returning `x`, while the claimed algorithm (return
the joined remainder) yields the unstripped ` x `. -/
theorem c5_counterexample :
    extract_json ("```\n x \n```") = "x" ∧
    String.mk (extract_json_claimed (("```\n x \n```" : String).data)) = " x " ∧
    extract_json ("```\n x \n```") ≠
      String.mk (extract_json_claimed (("```\n x \n```" : String).data)) := by
  refine ⟨by decide, by decide, by decide⟩

/-- Claim C5 as amended: for every input string, `_extract_json` trims
surrounding whitespace; if the trimmed text begins with a triple-backtick
fence marker it drops the first line and, when the last line (after
stripping) is a closing fence marker, drops that line too, returning the
joined remainder trimmed of surrounding whitespace; otherwise it returns
the trimmed text unchanged. It is total, and on the space-padded fenced
example it yields exactly the inner JSON object text. -/
theorem c5_extraction_algorithm :
    (∀ s : String, extract_json s = String.mk (extract_json_spec s.data)) ∧
    extract_json (" ```json\n\x7b\"a\":1\x7d\n``` ") = "\x7b\"a\":1\x7d" := by
  constructor
  · intro s
    rfl
  · decide

/-! ## Claim C7: idempotence on clean text -/

/-- Claim C7: on any string whose trimmed form does not begin with a
triple-backtick fence marker, extraction is idempotent. -/
theorem c7_extract_idempotent (s : String)
    (h : fenceChars.isPrefixOf (pyStripList s.data) = false) :
    extract_json (extract_json s) = extract_json s := by
  have h1 : extract_json s = String.mk (pyStripList s.data) := by
    unfold extract_json extract_json_chars
    simp [h]
  rw [h1]
  show String.mk (extract_json_chars (pyStripList s.data)) = String.mk (pyStripList s.data)
  unfold extract_json_chars
  rw [pyStripList_idem]
  simp [h]

/-- Witness for C7 at a concrete clean JSON string. -/
theorem c7_witness :
    fenceChars.isPrefixOf (pyStripList ((" \x7b\"a\":1\x7d " : String).data)) = false ∧
    extract_json (extract_json (" \x7b\"a\":1\x7d ")) = extract_json (" \x7b\"a\":1\x7d ") :=
  ⟨by decide, c7_extract_idempotent (" \x7b\"a\":1\x7d ") (by decide)⟩

/-! ## Stepping lemmas for the retry loop -/

theorem genLoop_step_invalid (svc : List Message → Except String String)
    (decode : String → Except String α) (mr : Int) (f : Nat) (a : Int)
    (msgs : List Message) (le : Option String) (t e : String)
    (ht : svc msgs = Except.ok t) (he : decode (extract_json t) = Except.error e) :
    generateStructuredLoop svc decode mr (f + 1) a msgs le =
      ((generateStructuredLoop svc decode mr f (a + 1)
          (if a < mr - 1 then
            msgs ++ [⟨"assistant", t⟩, ⟨"user", feedback_message e⟩]
          else msgs) (some e)).1,
        msgs :: (generateStructuredLoop svc decode mr f (a + 1)
          (if a < mr - 1 then
            msgs ++ [⟨"assistant", t⟩, ⟨"user", feedback_message e⟩]
          else msgs) (some e)).2) := by
  simp only [generateStructuredLoop, ht, he]

theorem genLoop_step_ok (svc : List Message → Except String String)
    (decode : String → Except String α) (mr : Int) (f : Nat) (a : Int)
    (msgs : List Message) (le : Option String) (t : String) (v : α)
    (ht : svc msgs = Except.ok t) (hv : decode (extract_json t) = Except.ok v) :
    generateStructuredLoop svc decode mr (f + 1) a msgs le = (GenResult.ok v, [msgs]) := by
  simp only [generateStructuredLoop, ht, hv]

theorem genLoop_zero (svc : List Message → Except String String)
    (decode : String → Except String α) (mr : Int) (a : Int)
    (msgs : List Message) (le : Option String) :
    generateStructuredLoop svc decode mr 0 a msgs le =
      (GenResult.validationError (exhaust_message mr le), []) := rfl

theorem genLoop_all_fail (svc : List Message → Except String String)
    (decode : String → Except String α) (mr : Int)
    (h : ∀ msgs, ∃ t, svc msgs = Except.ok t ∧
      ∃ e, decode (extract_json t) = Except.error e) :
    ∀ fuel (a : Int) (msgs : List Message) (le : Option String),
      (generateStructuredLoop svc decode mr fuel a msgs le).2.length = fuel ∧
      ∃ m, (generateStructuredLoop svc decode mr fuel a msgs le).1 =
        GenResult.validationError m := by
  intro fuel
  induction fuel with
  | zero => exact fun a msgs le => ⟨rfl, _, rfl⟩
  | succ f ih =>
    intro a msgs le
    obtain ⟨t, ht, e, he⟩ := h msgs
    rw [genLoop_step_invalid svc decode mr f a msgs le t e ht he]
    have h2 := ih (a + 1)
      (if a < mr - 1 then msgs ++ [⟨"assistant", t⟩, ⟨"user", feedback_message e⟩] else msgs)
      (some e)
    exact ⟨by simpa using h2.1, h2.2⟩

/-! ## Claim C1: the retry budget is exhausted exactly -/

/-- Claim C1: when every completion-service reply decodes to a parse or
validation failure, `generate_structured` with `max_retries = 3` invokes
the service exactly three times (the invocation trace has length three)
and terminates with the terminal validation error, not a success. -/
theorem c1_retry_budget_exact (svc : List Message → Except String String)
    (decode : String → Except String α) (sys : Option String) (schemaStr user : String)
    (h : ∀ msgs, ∃ t, svc msgs = Except.ok t ∧
      ∃ e, decode (extract_json t) = Except.error e) :
    (generate_structured svc decode sys schemaStr user 3).2.length = 3 ∧
    ∃ m, (generate_structured svc decode sys schemaStr user 3).1 =
      GenResult.validationError m := by
  have h3 := genLoop_all_fail svc decode 3 h (3 : Int).toNat 0
    (init_messages sys schemaStr user) none
  exact h3

/-- Witness for C1: the always-failing service and decoder. -/
theorem c1_witness :
    (generate_structured svcAlwaysBad decodeAlwaysFail none ("S") ("U") 3).2.length = 3 ∧
    ∃ m, (generate_structured svcAlwaysBad decodeAlwaysFail none ("S") ("U") 3).1 =
      GenResult.validationError m :=
  c1_retry_budget_exact svcAlwaysBad decodeAlwaysFail none ("S") ("U")
    (fun _ => ⟨"bad", rfl, "E", rfl⟩)

/-! ## Claim C2: recovery on the second attempt -/

/-- Claim C2: when the first reply decodes to a failure and the service,
invoked on the conversation extended by exactly the two appended messages
(the assistant message carrying the literal raw first reply, then the
user feedback message built from the error detail), answers with a reply
that decodes successfully, `generate_structured` with `max_retries = 3`
returns the validated value and its invocation trace is exactly the two
conversations. -/
theorem c2_second_attempt (svc : List Message → Except String String)
    (decode : String → Except String α) (sys : Option String) (schemaStr user : String)
    (t1 e1 t2 : String) (v : α)
    (h1 : svc (init_messages sys schemaStr user) = Except.ok t1)
    (h2 : decode (extract_json t1) = Except.error e1)
    (h3 : svc (init_messages sys schemaStr user ++
      [⟨"assistant", t1⟩, ⟨"user", feedback_message e1⟩]) = Except.ok t2)
    (h4 : decode (extract_json t2) = Except.ok v) :
    generate_structured svc decode sys schemaStr user 3 =
      (GenResult.ok v,
       [init_messages sys schemaStr user,
        init_messages sys schemaStr user ++
          [⟨"assistant", t1⟩, ⟨"user", feedback_message e1⟩]]) := by
  unfold generate_structured
  rw [show ((3 : Int).toNat) = 2 + 1 from rfl]
  rw [genLoop_step_invalid svc decode 3 2 0 _ none _ _ h1 h2]
  rw [if_pos (show (0 : Int) < 3 - 1 by norm_num)]
  rw [show (2 : Nat) = 1 + 1 from rfl]
  rw [genLoop_step_ok svc decode 3 1 (0 + 1) _ (some e1) _ v h3 h4]

/-- Witness for C2: the first reply is fenced invalid text; the trace
shows the literal raw (still fenced) reply appended, not its extracted
form. -/
theorem c2_witness :
    generate_structured svcSecondTry decodeGoodOnly none ("S") ("U") 3 =
      (GenResult.ok 1,
       [init_messages none ("S") ("U"),
        init_messages none ("S") ("U") ++
          [⟨"assistant", "```json\nbad\n```"⟩, ⟨"user", feedback_message ("E")⟩]]) :=
  c2_second_attempt svcSecondTry decodeGoodOnly none ("S") ("U")
    ("```json\nbad\n```") ("E") ("good") 1 rfl rfl rfl rfl

/-! ## Claim C3: content of the terminal error -/

/-- Claim C3, counterexample to the claim as stated: a run that exhausts
the budget raises the terminal error, but its message does not carry the
raw model output (the marker string does not occur in it); it carries
only the attempt count and the last error detail. -/
theorem c3_counterexample :
    (generate_structured svcRawMarker decodeBoom none ("S") ("U") 3).1 =
      GenResult.validationError (exhaust_message 3 (some ("boom"))) ∧
    containsSubstr ("RAW_OUTPUT_XYZ") (exhaust_message 3 (some ("boom"))) = false := by
  refine ⟨by decide, by decide⟩

/-- Claim C3 as amended: whenever `generate_structured` exhausts its
retry budget, it raises a single terminal error whose message carries the
attempt count and the parse or validation error detail of the last
(third) attempt as a substring; the last raw model output is not part of
the message. -/
theorem c3_terminal_error (svc : List Message → Except String String)
    (decode : String → Except String α) (sys : Option String) (schemaStr user : String)
    (t1 e1 t2 e2 t3 e3 : String)
    (h1 : svc (init_messages sys schemaStr user) = Except.ok t1)
    (h2 : decode (extract_json t1) = Except.error e1)
    (h3 : svc (init_messages sys schemaStr user ++
      [⟨"assistant", t1⟩, ⟨"user", feedback_message e1⟩]) = Except.ok t2)
    (h4 : decode (extract_json t2) = Except.error e2)
    (h5 : svc (init_messages sys schemaStr user ++
      [⟨"assistant", t1⟩, ⟨"user", feedback_message e1⟩] ++
      [⟨"assistant", t2⟩, ⟨"user", feedback_message e2⟩]) = Except.ok t3)
    (h6 : decode (extract_json t3) = Except.error e3) :
    generate_structured svc decode sys schemaStr user 3 =
      (GenResult.validationError (exhaust_message 3 (some e3)),
       [init_messages sys schemaStr user,
        init_messages sys schemaStr user ++
          [⟨"assistant", t1⟩, ⟨"user", feedback_message e1⟩],
        init_messages sys schemaStr user ++
          [⟨"assistant", t1⟩, ⟨"user", feedback_message e1⟩] ++
          [⟨"assistant", t2⟩, ⟨"user", feedback_message e2⟩]]) ∧
    containsSubstr e3 (exhaust_message 3 (some e3)) = true := by
  constructor
  · unfold generate_structured
    rw [show ((3 : Int).toNat) = 2 + 1 from rfl]
    rw [genLoop_step_invalid svc decode 3 2 0 _ none _ _ h1 h2]
    rw [if_pos (show (0 : Int) < 3 - 1 by norm_num)]
    rw [show (2 : Nat) = 1 + 1 from rfl]
    rw [genLoop_step_invalid svc decode 3 1 (0 + 1) _ (some e1) _ _ h3 h4]
    rw [if_pos (show (0 : Int) + 1 < 3 - 1 by norm_num)]
    rw [show (1 : Nat) = 0 + 1 from rfl]
    rw [genLoop_step_invalid svc decode 3 0 (0 + 1 + 1) _ (some e2) _ _ h5 h6]
    rw [if_neg (show ¬ ((0 : Int) + 1 + 1 < 3 - 1) by norm_num)]
    rw [genLoop_zero]
  · unfold exhaust_message
    exact containsSubstr_append e3 _

/-- Witness for C3 as amended, at the marker service. -/
theorem c3_witness :
    generate_structured svcRawMarker decodeBoom none ("S") ("U") 3 =
      (GenResult.validationError (exhaust_message 3 (some ("boom"))),
       [init_messages none ("S") ("U"),
        init_messages none ("S") ("U") ++
          [⟨"assistant", "RAW_OUTPUT_XYZ"⟩, ⟨"user", feedback_message ("boom")⟩],
        init_messages none ("S") ("U") ++
          [⟨"assistant", "RAW_OUTPUT_XYZ"⟩, ⟨"user", feedback_message ("boom")⟩] ++
          [⟨"assistant", "RAW_OUTPUT_XYZ"⟩, ⟨"user", feedback_message ("boom")⟩]]) ∧
    containsSubstr ("boom") (exhaust_message 3 (some ("boom"))) = true :=
  c3_terminal_error svcRawMarker decodeBoom none ("S") ("U")
    ("RAW_OUTPUT_XYZ") ("boom") ("RAW_OUTPUT_XYZ") ("boom") ("RAW_OUTPUT_XYZ") ("boom")
    rfl rfl rfl rfl rfl rfl

/-! ## Claim C4: a transport failure aborts immediately -/

/-- Claim C4: whenever the loop body runs (any attempt, any retry budget,
any remaining fuel, any accumulated conversation) and the completion
service raises a transport failure, the call aborts at once with the
fatal `RuntimeError`, and the invocation trace from that point contains
exactly the one failing call. -/
theorem c4_service_error_aborts (svc : List Message → Except String String)
    (decode : String → Except String α) (mr : Int) (fuel : Nat) (a : Int)
    (msgs : List Message) (le : Option String) (e : String)
    (h : svc msgs = Except.error e) :
    generateStructuredLoop svc decode mr (fuel + 1) a msgs le =
      (GenResult.runtimeError ("API request failed: " ++ e), [msgs]) := by
  simp only [generateStructuredLoop, h]

/-- Witness for C4 at the failing transport service on the first attempt
of a three-retry call. -/
theorem c4_witness :
    generateStructuredLoop svcTransportFail decodeAlwaysFail 3 (2 + 1) 0
      (init_messages none ("S") ("U")) none =
      (GenResult.runtimeError ("API request failed: boom"),
       [init_messages none ("S") ("U")]) :=
  c4_service_error_aborts svcTransportFail decodeAlwaysFail 3 2 0
    (init_messages none ("S") ("U")) none ("boom") rfl

/-! ## Claim C10: a non-positive retry budget -/

/-- Claim C10: with `max_retries` zero or negative the loop body never
runs, the completion service is never invoked (the trace is empty), and
the call raises the terminal error built from `last_error = None`. -/
theorem c10_nonpositive_budget (svc : List Message → Except String String)
    (decode : String → Except String α) (sys : Option String) (schemaStr user : String)
    (mr : Int) (h : mr ≤ 0) :
    generate_structured svc decode sys schemaStr user mr =
      (GenResult.validationError (exhaust_message mr none), []) := by
  unfold generate_structured
  rw [Int.toNat_of_nonpos h]
  rfl

/-- Witness for C10 at `max_retries = 0`. -/
theorem c10_witness :
    generate_structured svcAlwaysBad decodeAlwaysFail none ("S") ("U") 0 =
      (GenResult.validationError (exhaust_message 0 none), []) :=
  c10_nonpositive_budget svcAlwaysBad decodeAlwaysFail none ("S") ("U") 0 (by norm_num)

/-! ## Claim C6: list generation through the synthetic wrapper -/

/-- Claim C6: `generate_structured_list` delegates to
`generate_structured` with the item model wrapped in the synthetic
single-field `ListWrapper` schema and the same retry budget, and on a
first reply that parses and validates under the wrapper it returns the
unwrapped `items` field after a single completion-service invocation,
whatever positive budget was given. -/
theorem c6_structured_list (svc : List Message → Except String String)
    (vi : Json → Except String β) (sys : Option String) (schemaStr user : String)
    (mr : Int) (raw : String) (w : ListWrapper β)
    (hmr : 1 ≤ mr)
    (hsvc : svc (init_messages sys schemaStr user) = Except.ok raw)
    (hdec : wrapped_decode vi (extract_json raw) = Except.ok w) :
    generate_structured_list svc vi sys schemaStr user mr =
      (GenResult.ok w.items, [init_messages sys schemaStr user]) ∧
    generate_structured svc (wrapped_decode vi) sys schemaStr user mr =
      (GenResult.ok w, [init_messages sys schemaStr user]) := by
  have hk : ∃ k, mr.toNat = k + 1 := ⟨mr.toNat - 1, by omega⟩
  obtain ⟨k, hk⟩ := hk
  have hgs : generate_structured svc (wrapped_decode vi) sys schemaStr user mr =
      (GenResult.ok w, [init_messages sys schemaStr user]) := by
    unfold generate_structured
    rw [hk]
    exact genLoop_step_ok svc (wrapped_decode vi) mr k 0
      (init_messages sys schemaStr user) none raw w hsvc hdec
  refine ⟨?_, hgs⟩
  unfold generate_structured_list
  rw [hgs]

/-- Witness for C6: the concrete example of the claim; the wrapped payload
decodes to the single-element typed list with name `A` and priority
`high`. -/
theorem c6_witness :
    generate_structured_list svcItemsExample validateTask none ("S") ("U") 3 =
      (GenResult.ok [(⟨"A", "high"⟩ : Task)], [init_messages none ("S") ("U")]) := by
  have h := c6_structured_list svcItemsExample validateTask none ("S") ("U") 3
    ("\x7b\"items\":[\x7b\"name\":\"A\",\"priority\":\"high\"\x7d]\x7d")
    (⟨[⟨"A", "high"⟩]⟩ : ListWrapper Task) (by norm_num) rfl rfl
  exact h.1

/-! ## Claim C8: config validation bounds -/

/-- Claim C8: `ModelConfig` construction succeeds, returning the snapshot
of the given parameters, exactly when temperature lies in zero to two,
top-p in zero to one, both penalties in minus two to two, and max tokens
is absent or at least one; any violating combination yields the
`ValueError` branch instead of a value. -/
theorem c8_config_validation (model : Option String) (t : ℚ) (mt : Option Int)
    (tp fp pp : ℚ) (sp : Option String) (eb : List (String × String)) :
    mkModelConfig model t mt tp fp pp sp eb =
        Except.ok ⟨model, t, mt, tp, fp, pp, sp, eb⟩ ↔
      (0 ≤ t ∧ t ≤ 2 ∧ 0 ≤ tp ∧ tp ≤ 1 ∧ -2 ≤ fp ∧ fp ≤ 2 ∧ -2 ≤ pp ∧ pp ≤ 2 ∧
        ∀ m, mt = some m → 1 ≤ m) := by
  unfold mkModelConfig
  split_ifs with h1 h2 h3 h4 h5
  · constructor
    · intro hcontra; exact absurd hcontra (by simp)
    · rintro ⟨ha1, ha2, _⟩
      exfalso; rcases h1 with h | h <;> linarith
  · constructor
    · intro hcontra; exact absurd hcontra (by simp)
    · rintro ⟨_, _, hb1, hb2, _⟩
      exfalso; rcases h2 with h | h <;> linarith
  · constructor
    · intro hcontra; exact absurd hcontra (by simp)
    · rintro ⟨_, _, _, _, hc1, hc2, _⟩
      exfalso; rcases h3 with h | h <;> linarith
  · constructor
    · intro hcontra; exact absurd hcontra (by simp)
    · rintro ⟨_, _, _, _, _, _, hd1, hd2, _⟩
      exfalso; rcases h4 with h | h <;> linarith
  · constructor
    · intro hcontra; exact absurd hcontra (by simp)
    · rintro ⟨_, _, _, _, _, _, _, _, hmt⟩
      exfalso
      cases mt with
      | none => simp [max_tokens_invalid] at h5
      | some m =>
        simp [max_tokens_invalid] at h5
        have := hmt m rfl
        omega
  · constructor
    · intro _
      push_neg at h1 h2 h3 h4
      refine ⟨h1.1, h1.2, h2.1, h2.2, h3.1, h3.2, h4.1, h4.2, ?_⟩
      intro m hm
      subst hm
      simp [max_tokens_invalid] at h5
      omega
    · intro _; rfl

/-- Witness for C8: the in-bounds default-style parameters construct the
snapshot. -/
theorem c8_witness :
    mkModelConfig (some ("m")) (7/10) none 1 0 0 none [] =
      Except.ok ⟨some ("m"), 7/10, none, 1, 0, 0, none, []⟩ :=
  (c8_config_validation (some ("m")) (7/10) none 1 0 0 none []).mpr
    ⟨by norm_num, by norm_num, by norm_num, by norm_num, by norm_num, by norm_num,
     by norm_num, by norm_num, fun m hm => by simp at hm⟩

/-! ## Claim C9: the config is not an immutable snapshot -/

/-- Claim C9, counterexample to the claim as stated: client construction
modifies the caller-supplied `ModelConfig` in place; with the alias
`deepseek` as model, the config object after construction differs from
the one the caller passed, its model field having been overwritten with
the alias-resolved full name. -/
theorem c9_counterexample :
    init_default_config ("pick") aliasConfig ≠ aliasConfig ∧
    (init_default_config ("pick") aliasConfig).model =
      some ("deepseek/deepseek-chat-v3.1:free") ∧
    aliasConfig.model = some ("deepseek") := by
  refine ⟨by decide, by decide, rfl⟩

/-- Claim C9 as amended: `generate_text`, `generate_structured` and
`generate_structured_list` modify no field of the caller-supplied
`ModelConfig`; client construction, however, overwrites its model field
in place (the chosen default model when absent, the alias-resolved name
otherwise) while leaving every other field unchanged. -/
theorem c9_config_mutation (pick : String) (c : ModelConfig)
    (svc : List Message → Except String String) (decode : String → Except String α)
    (vi : Json → Except String β) (schemaStr up : String) (mr : Int) :
    (init_default_config pick c).temperature = c.temperature ∧
    (init_default_config pick c).max_tokens = c.max_tokens ∧
    (init_default_config pick c).top_p = c.top_p ∧
    (init_default_config pick c).frequency_penalty = c.frequency_penalty ∧
    (init_default_config pick c).presence_penalty = c.presence_penalty ∧
    (init_default_config pick c).system_prompt = c.system_prompt ∧
    (init_default_config pick c).extra_body = c.extra_body ∧
    (c.model = none → (init_default_config pick c).model = some pick) ∧
    (∀ m, c.model = some m → (init_default_config pick c).model = some (resolve_model m)) ∧
    (generate_text c up).2 = c ∧
    (generate_structured_client svc decode c schemaStr up mr).2 = c ∧
    (generate_structured_list_client svc vi c schemaStr up mr).2 = c := by
  cases c with
  | mk model temp mt tp fp pp sp eb =>
    cases model <;>
      simp [init_default_config, generate_text, generate_structured_client,
        generate_structured_list_client]

/-- Witness for C9 as amended, at the alias config. -/
theorem c9_witness :
    (init_default_config ("pick") aliasConfig).temperature = aliasConfig.temperature ∧
    (init_default_config ("pick") aliasConfig).model = some (resolve_model ("deepseek")) ∧
    (generate_text aliasConfig ("U")).2 = aliasConfig := by
  have h := c9_config_mutation ("pick") aliasConfig svcAlwaysBad decodeAlwaysFail
    validateTask ("S") ("U") 3
  exact ⟨h.1, h.2.2.2.2.2.2.2.2.1 ("deepseek") rfl, h.2.2.2.2.2.2.2.2.2.1⟩

end ORouter
